import Mathlib

/-!
Verification development for `schwab/orders/options.py`.

Modelling conventions:
* Python strings are modelled as `List Char`.
* Python `int` values are `Nat`/`Int`; `str(int(...))` is `toDecimal`.
* Python decimal literals handed to `float(...)` are modelled as exact
  rationals (`ℚ`); the plain decimal grammar (optional sign, digits, at
  most one point) is supported.  Exponent forms, `inf`/`nan`, embedded
  underscores and surrounding whitespace accepted by CPython's `float`
  are outside the modelled grammar, as are non-ASCII digits.
* `datetime.datetime.strptime(s, "%y%m%d")` is modelled faithfully after
  CPython's `_strptime` implementation: the regular expression
  `(?P<y>\d\d)(?P<m>1[0-2]|0[1-9]|[1-9])(?P<d>3[0-1]|[1-2]\d|0[1-9]|[1-9]| [1-9])`
  is matched with backtracking alternation priority, the first successful
  match is taken, a ValueError is raised when unconverted data remains,
  the two-digit year maps to 2000+yy for yy <= 68 and to 1900+yy
  otherwise, and the resulting (year, month, day) is calendar-validated.
-/

deriving instance DecidableEq for Except

namespace PySchwab

/-- ASCII digit test, `48 ≤ c ≤ 57` on code points. -/
def isDigitC (c : Char) : Bool := 48 ≤ c.toNat && c.toNat ≤ 57

/-- Numeric value of an ASCII digit character. -/
def digitVal (c : Char) : Nat := c.toNat - 48

/-- The ASCII digit character for a value below ten. -/
def digitChar : Nat → Char
  | 0 => '0'
  | 1 => '1'
  | 2 => '2'
  | 3 => '3'
  | 4 => '4'
  | 5 => '5'
  | 6 => '6'
  | 7 => '7'
  | 8 => '8'
  | 9 => '9'
  | _ => '*'

/-- Fuel-driven accumulator for decimal rendering of a natural number. -/
def toDecimalAux : Nat → Nat → List Char → List Char
  | 0, _, acc => acc
  | fuel + 1, n, acc =>
    if n < 10 then digitChar n :: acc
    else toDecimalAux fuel (n / 10) (digitChar (n % 10) :: acc)

/-- Decimal rendering of a natural number, Python's `str(n)` for `n ≥ 0`. -/
def toDecimal (n : Nat) : List Char := toDecimalAux (n + 1) n []

/-- Python's `str.split(sep)` for a one-character separator: split on every
occurrence, keeping empty pieces. -/
def pySplit (sep : Char) : List Char → List (List Char)
  | [] => [[]]
  | c :: cs =>
    if c = sep then [] :: pySplit sep cs
    else
      match pySplit sep cs with
      | [] => [[c]]
      | r :: rs => (c :: r) :: rs

/-- Left fold computing the value of a digit string from an accumulator. -/
def digitsValAux : Nat → List Char → Nat
  | acc, [] => acc
  | acc, c :: cs => digitsValAux (acc * 10 + digitVal c) cs

/-- Value of a digit string. -/
def digitsVal (cs : List Char) : Nat := digitsValAux 0 cs

/-- Whether every character of the list is an ASCII digit. -/
def allDigits (cs : List Char) : Bool := cs.all isDigitC

/-- Python's `float(s)` restricted to plain decimal notation, after the sign
has been stripped: digit characters with at most one decimal point, at least
one digit overall.  The value is kept exactly, as a scaled decimal
`(num, exp)` denoting the rational `num / 10 ^ exp`. -/
def parseDecFrom (rest : List Char) (neg : Bool) : Option (Int × Nat) :=
  match pySplit '.' rest with
  | [a] =>
    if a ≠ [] && allDigits a then
      some ((if neg then (-1 : Int) else 1) * (digitsVal a : Int), 0)
    else none
  | [a, b] =>
    if (a ≠ [] || b ≠ []) && allDigits a && allDigits b then
      some ((if neg then (-1 : Int) else 1) *
        ((digitsVal a : Int) * (10 : Int) ^ b.length + (digitsVal b : Int)),
        b.length)
    else none
  | _ => none

/-- Python's `float(s)` on plain decimal literals: optional sign, then
digits with at most one point.  The result `(num, exp)` denotes the exact
rational `num / 10 ^ exp`. -/
def parseDecimal : List Char → Option (Int × Nat)
  | '-' :: rest => parseDecFrom rest true
  | '+' :: rest => parseDecFrom rest false
  | cs => parseDecFrom cs false

/-- The rational value denoted by a scaled decimal (used in statements
relating strike strings to their numeric value). -/
def decValue (p : Int × Nat) : ℚ := (p.1 : ℚ) / (10 : ℚ) ^ p.2

/-- A calendar date, as produced by `datetime.date(year, month, day)`. -/
structure Date where
  year : Nat
  month : Nat
  day : Nat
deriving DecidableEq

/-- Gregorian leap-year rule, as in `datetime`/`calendar`. -/
def isLeap (y : Nat) : Bool := y % 4 == 0 && (y % 100 != 0 || y % 400 == 0)

/-- Number of days of a month, as validated by `datetime.date`. -/
def daysInMonth (y m : Nat) : Nat :=
  if m = 2 then (if isLeap y then 29 else 28)
  else if m = 4 || m = 6 || m = 9 || m = 11 then 30
  else 31

/-- The validation performed by the `datetime.date` constructor (restricted
to the month/day part; the year bounds 1..9999 always hold here). -/
def dateValid (y m d : Nat) : Bool :=
  1 ≤ m && m ≤ 12 && 1 ≤ d && d ≤ daysInMonth y m

/-- CPython `_strptime` mapping of a `%y` two-digit year to a full year. -/
def mapYear (yy : Nat) : Nat := if yy ≤ 68 then 2000 + yy else 1900 + yy

/-- The `%m` pattern `1[0-2]|0[1-9]|[1-9]`: all prefix matches of the month
group, in backtracking priority order, with the unconsumed remainder. -/
def monthCandidates : List Char → List (Nat × List Char)
  | c1 :: c2 :: r =>
    (if c1 = '1' && 48 ≤ c2.toNat && c2.toNat ≤ 50 then [(10 + digitVal c2, r)] else []) ++
    (if c1 = '0' && 49 ≤ c2.toNat && c2.toNat ≤ 57 then [(digitVal c2, r)] else []) ++
    (if 49 ≤ c1.toNat && c1.toNat ≤ 57 then [(digitVal c1, c2 :: r)] else [])
  | [c1] =>
    if 49 ≤ c1.toNat && c1.toNat ≤ 57 then [(digitVal c1, [])] else []
  | [] => []

/-- The `%d` pattern `3[0-1]|[1-2]\d|0[1-9]|[1-9]| [1-9]`: first matching
alternative (the day group is last, so only the first match matters). -/
def dayMatch : List Char → Option (Nat × List Char)
  | c1 :: c2 :: r =>
    if c1 = '3' && (c2 = '0' || c2 = '1') then some (30 + digitVal c2, r)
    else if (c1 = '1' || c1 = '2') && isDigitC c2 then
      some (digitVal c1 * 10 + digitVal c2, r)
    else if c1 = '0' && 49 ≤ c2.toNat && c2.toNat ≤ 57 then some (digitVal c2, r)
    else if 49 ≤ c1.toNat && c1.toNat ≤ 57 then some (digitVal c1, c2 :: r)
    else if c1 = ' ' && 49 ≤ c2.toNat && c2.toNat ≤ 57 then some (digitVal c2, r)
    else none
  | [c1] =>
    if 49 ≤ c1.toNat && c1.toNat ≤ 57 then some (digitVal c1, []) else none
  | [] => none

/-- `datetime.datetime.strptime(s, "%y%m%d")` restricted to its date part:
two year digits, then the first (month, day) alternative pair matched by the
backtracking regex; fails when unconverted data remains or the resulting
(year, month, day) triple is not a calendar date. -/
def strptimeYMD (cs : List Char) : Option Date :=
  match cs with
  | c1 :: c2 :: r =>
    if isDigitC c1 && isDigitC c2 then
      match (monthCandidates r).findSome?
          (fun mc => (dayMatch mc.2).map (fun dc => (mc.1, dc.1, dc.2))) with
      | some (m, d, rest) =>
        if rest = [] then
          let y := mapYear (digitVal c1 * 10 + digitVal c2)
          if dateValid y m d then some ⟨y, m, d⟩ else none
        else none
      | none => none
    else none
  | _ => none

/-- Error taxonomy of the module.  Every failure in the source is a Python
`ValueError` carrying a message; the constructor records which validation
failed (spec §7 taxonomy) and the exact message text raised. -/
inductive SchwabError where
  | invalidContractType (msg : List Char)
  | invalidDateFormat (msg : List Char)
  | invalidStrike (msg : List Char)
  | invalidSymbolFormat (msg : List Char)
deriving DecidableEq

/-- Message of the ValueError raised by `_parse_expiration_date`. -/
def dateFormatMsg : List Char :=
  ("expiration date must follow format [Two digit year][Two digit month][Two digit day]").data

/-- Message of the ValueError raised for a bad contract type. -/
def contractTypeMsg : List Char :=
  ("Contract type must be one of \x27C\x27, \x27CALL\x27, \x27P\x27 or \x27PUT\x27").data

/-- Message of the ValueError that escapes for a bad or non-positive strike
(the inner positive-number message is swallowed by the `except` clause). -/
def strikeMsg : List Char :=
  ("Strike price must be a string representing a positive float").data

/-- The shared `format_error_str` fragment of `parse_symbol`. -/
def formatErrorMsg : List Char :=
  ("option symbol must have format [Underlying]_[Expiration][P/C][Strike]").data

/-- Message of the ValueError raised when the symbol has no single underscore. -/
def underscoreMsg : List Char :=
  ("option symbol missing underscore \x27_\x27, ").data ++ formatErrorMsg

/-- Message of the ValueError raised when neither the P nor the C split of the
remainder yields two pieces (a raw string in the source, so the backslashes
are literal). -/
def contractSplitMsg : List Char :=
  ("option must have contract type \\\x27C\\\x27 r \\\x27\\P\\\x27, ").data ++ formatErrorMsg

/-- The accepted runtime types of the `expiration_date` argument: a string,
a `datetime.datetime` (whose time-of-day fields are discarded), or a
`datetime.date`. -/
inductive ExpirationInput where
  | str (s : List Char)
  | datetime (d : Date) (hour minute second : Nat)
  | date (d : Date)

/-- `_parse_expiration_date`: `strptime` with format `%y%m%d`, any
`ValueError` replaced by the fixed format message. -/
def _parse_expiration_date (cs : List Char) : Except SchwabError Date :=
  match strptimeYMD cs with
  | some d => Except.ok d
  | none => Except.error (SchwabError.invalidDateFormat dateFormatMsg)

/-- The state stored by a validated `OptionSymbol`, in the order the
constructor assigns it. -/
structure OptionSymbol where
  underlying_symbol : List Char
  contract_type : List Char
  expiration_date : Date
  strike_price : List Char
deriving DecidableEq

/-- `OptionSymbol.__init__`: contract-type normalization, expiration
dispatch by runtime type, then strike validation and fixed-point encoding.
For the strike `(num, exp)` (denoting `num / 10 ^ exp`), Python computes
`int(strike * 1000)`; the value is positive at that point, so truncation
toward zero is the floor `num.toNat * 1000 / 10 ^ exp` in exact arithmetic. -/
def OptionSymbol.make (underlying_symbol : List Char)
    (expiration_date : ExpirationInput) (contract_type : List Char)
    (strike_price_as_string : List Char) : Except SchwabError OptionSymbol :=
  match
    (if contract_type = ("C").data ∨ contract_type = ("CALL").data then
      Except.ok (("C").data)
    else if contract_type = ("P").data ∨ contract_type = ("PUT").data then
      Except.ok (("P").data)
    else Except.error (SchwabError.invalidContractType contractTypeMsg) :
      Except SchwabError (List Char)) with
  | Except.error e => Except.error e
  | Except.ok ct =>
    match
      (match expiration_date with
       | ExpirationInput.str s => _parse_expiration_date s
       | ExpirationInput.datetime d _ _ _ => Except.ok d
       | ExpirationInput.date d => Except.ok d) with
    | Except.error e => Except.error e
    | Except.ok ed =>
      match parseDecimal strike_price_as_string with
      | none => Except.error (SchwabError.invalidStrike strikeMsg)
      | some (num, exp) =>
        if num ≤ 0 then Except.error (SchwabError.invalidStrike strikeMsg)
        else
          Except.ok
            { underlying_symbol := underlying_symbol
              contract_type := ct
              expiration_date := ed
              strike_price :=
                (if num < 1000 * (10 : Int) ^ exp then ['0', '0'] else ['0']) ++
                  toDecimal (num.toNat * 1000 / 10 ^ exp) }

/-- The tail of `parse_symbol` after a successful split: parse the
expiration piece, then construct through the ordinary constructor path. -/
def parseTail (underlying expiration ct strike : List Char) :
    Except SchwabError OptionSymbol :=
  match _parse_expiration_date expiration with
  | Except.error e => Except.error e
  | Except.ok d => OptionSymbol.make underlying (ExpirationInput.date d) ct strike

/-- `OptionSymbol.parse_symbol`: split on the underscore (exactly two pieces
required), then split the remainder on `P` and, failing that, on `C`. -/
def OptionSymbol.parse_symbol (symbol : List Char) : Except SchwabError OptionSymbol :=
  match pySplit '_' symbol with
  | [underlying, rest] =>
    (match pySplit 'P' rest with
     | [expiration, strike] => parseTail underlying expiration (("P").data) strike
     | _ =>
       match pySplit 'C' rest with
       | [expiration, strike] => parseTail underlying expiration (("C").data) strike
       | _ => Except.error (SchwabError.invalidSymbolFormat contractSplitMsg))
  | _ => Except.error (SchwabError.invalidSymbolFormat underscoreMsg)

/-- Two-digit zero padding, as `%y`, `%m` and `%d` render in `strftime`. -/
def pad2 (n : Nat) : List Char := if n < 10 then '0' :: toDecimal n else toDecimal n

/-- `date.strftime("%y%m%d")`. -/
def strftimeYMD (d : Date) : List Char :=
  pad2 (d.year % 100) ++ pad2 d.month ++ pad2 d.day

/-- `OptionSymbol.build`: underlying, two literal spaces, `%y%m%d` date,
contract letter, encoded strike field. -/
def OptionSymbol.build (o : OptionSymbol) : List Char :=
  o.underlying_symbol ++ [' ', ' '] ++ strftimeYMD o.expiration_date ++
    o.contract_type ++ o.strike_price

/-- Decidable recognizer for the InvalidSymbolFormat error class. -/
def isInvalidSymbolFormat {α : Type} : Except SchwabError α → Bool
  | Except.error (SchwabError.invalidSymbolFormat _) => true
  | _ => false

/-- Decidable recognizer for success of a construction. -/
def exceptOk {α : Type} : Except SchwabError α → Bool
  | Except.ok _ => true
  | _ => false

/-- Modelled from the spec: `schwab.orders.common.Session` is not under
src/; only the `NORMAL` tag the recipes reference is modelled. -/
inductive Session where
  | NORMAL
deriving DecidableEq

/-- Modelled from the spec: `schwab.orders.common.Duration`; only the `DAY`
tag the recipes reference is modelled. -/
inductive Duration where
  | DAY
deriving DecidableEq

/-- Modelled from the spec: `schwab.orders.common.OrderType`; only the tags
the recipes reference are modelled. -/
inductive OrderType where
  | MARKET
  | LIMIT
  | NET_DEBIT
  | NET_CREDIT
deriving DecidableEq

/-- Modelled from the spec: `schwab.orders.common.OptionInstruction`. -/
inductive OptionInstruction where
  | BUY_TO_OPEN
  | SELL_TO_OPEN
  | BUY_TO_CLOSE
  | SELL_TO_CLOSE
deriving DecidableEq

/-- Modelled from the spec: `schwab.orders.common.OrderStrategyType`; only
the `SINGLE` tag the recipes reference is modelled. -/
inductive OrderStrategyType where
  | SINGLE
deriving DecidableEq

/-- Modelled from the spec: `schwab.orders.common.ComplexOrderStrategyType`;
only the `VERTICAL` tag the recipes reference is modelled. -/
inductive ComplexOrderStrategyType where
  | VERTICAL
deriving DecidableEq

/-- One option leg of an order: instruction, option symbol, quantity. -/
structure OptionLeg where
  instruction : OptionInstruction
  symbol : List Char
  quantity : Nat
deriving DecidableEq

/-- Modelled from the spec: `schwab.orders.generic.OrderBuilder` is not
under src/.  Per spec §1/§6 it is a plain field accumulator: each setter
stores its value, and appending an option leg adds it at the end of the leg
list.  Unset fields are absent from the produced document (`none`).  Prices
are kept as the scaled decimals the caller supplies. -/
structure OrderBuilder where
  session : Option Session := none
  duration : Option Duration := none
  orderType : Option OrderType := none
  complexOrderStrategyType : Option ComplexOrderStrategyType := none
  price : Option (Int × Nat) := none
  quantity : Option Nat := none
  orderStrategyType : Option OrderStrategyType := none
  legs : List OptionLeg := []
deriving DecidableEq

/-- `OrderBuilder.set_session`. -/
def OrderBuilder.set_session (b : OrderBuilder) (s : Session) : OrderBuilder :=
  { b with session := some s }

/-- `OrderBuilder.set_duration`. -/
def OrderBuilder.set_duration (b : OrderBuilder) (d : Duration) : OrderBuilder :=
  { b with duration := some d }

/-- `OrderBuilder.set_order_type`. -/
def OrderBuilder.set_order_type (b : OrderBuilder) (t : OrderType) : OrderBuilder :=
  { b with orderType := some t }

/-- `OrderBuilder.set_complex_order_strategy_type`. -/
def OrderBuilder.set_complex_order_strategy_type (b : OrderBuilder)
    (t : ComplexOrderStrategyType) : OrderBuilder :=
  { b with complexOrderStrategyType := some t }

/-- `OrderBuilder.set_price`. -/
def OrderBuilder.set_price (b : OrderBuilder) (p : Int × Nat) : OrderBuilder :=
  { b with price := some p }

/-- `OrderBuilder.set_quantity`. -/
def OrderBuilder.set_quantity (b : OrderBuilder) (q : Nat) : OrderBuilder :=
  { b with quantity := some q }

/-- `OrderBuilder.set_order_strategy_type`. -/
def OrderBuilder.set_order_strategy_type (b : OrderBuilder)
    (t : OrderStrategyType) : OrderBuilder :=
  { b with orderStrategyType := some t }

/-- `OrderBuilder.add_option_leg`. -/
def OrderBuilder.add_option_leg (b : OrderBuilder) (i : OptionInstruction)
    (symbol : List Char) (q : Nat) : OrderBuilder :=
  { b with legs := b.legs ++ [⟨i, symbol, q⟩] }

/-- `__base_builder`: fresh builder with normal session and day duration. -/
def __base_builder : OrderBuilder :=
  (({} : OrderBuilder).set_session Session.NORMAL).set_duration Duration.DAY

/-- `option_buy_to_open_market`. -/
def option_buy_to_open_market (symbol : List Char) (quantity : Nat) : OrderBuilder :=
  ((__base_builder.set_order_type OrderType.MARKET).set_order_strategy_type
      OrderStrategyType.SINGLE).add_option_leg
    OptionInstruction.BUY_TO_OPEN symbol quantity

/-- `option_buy_to_open_limit`. -/
def option_buy_to_open_limit (symbol : List Char) (quantity : Nat)
    (price : Int × Nat) : OrderBuilder :=
  (((__base_builder.set_order_type OrderType.LIMIT).set_price
        price).set_order_strategy_type OrderStrategyType.SINGLE).add_option_leg
    OptionInstruction.BUY_TO_OPEN symbol quantity

/-- `option_sell_to_open_market`. -/
def option_sell_to_open_market (symbol : List Char) (quantity : Nat) : OrderBuilder :=
  ((__base_builder.set_order_type OrderType.MARKET).set_order_strategy_type
      OrderStrategyType.SINGLE).add_option_leg
    OptionInstruction.SELL_TO_OPEN symbol quantity

/-- `option_sell_to_open_limit`. -/
def option_sell_to_open_limit (symbol : List Char) (quantity : Nat)
    (price : Int × Nat) : OrderBuilder :=
  (((__base_builder.set_order_type OrderType.LIMIT).set_price
        price).set_order_strategy_type OrderStrategyType.SINGLE).add_option_leg
    OptionInstruction.SELL_TO_OPEN symbol quantity

/-- `option_buy_to_close_market`. -/
def option_buy_to_close_market (symbol : List Char) (quantity : Nat) : OrderBuilder :=
  ((__base_builder.set_order_type OrderType.MARKET).set_order_strategy_type
      OrderStrategyType.SINGLE).add_option_leg
    OptionInstruction.BUY_TO_CLOSE symbol quantity

/-- `option_buy_to_close_limit`. -/
def option_buy_to_close_limit (symbol : List Char) (quantity : Nat)
    (price : Int × Nat) : OrderBuilder :=
  (((__base_builder.set_order_type OrderType.LIMIT).set_price
        price).set_order_strategy_type OrderStrategyType.SINGLE).add_option_leg
    OptionInstruction.BUY_TO_CLOSE symbol quantity

/-- `option_sell_to_close_market`. -/
def option_sell_to_close_market (symbol : List Char) (quantity : Nat) : OrderBuilder :=
  ((__base_builder.set_order_type OrderType.MARKET).set_order_strategy_type
      OrderStrategyType.SINGLE).add_option_leg
    OptionInstruction.SELL_TO_CLOSE symbol quantity

/-- `option_sell_to_close_limit`. -/
def option_sell_to_close_limit (symbol : List Char) (quantity : Nat)
    (price : Int × Nat) : OrderBuilder :=
  (((__base_builder.set_order_type OrderType.LIMIT).set_price
        price).set_order_strategy_type OrderStrategyType.SINGLE).add_option_leg
    OptionInstruction.SELL_TO_CLOSE symbol quantity

/-- `bull_call_vertical_open`. -/
def bull_call_vertical_open (long_call_symbol short_call_symbol : List Char)
    (quantity : Nat) (net_debit : Int × Nat) : OrderBuilder :=
  (((((__base_builder.set_order_type
      OrderType.NET_DEBIT).set_complex_order_strategy_type
      ComplexOrderStrategyType.VERTICAL).set_price net_debit).set_quantity
      quantity).set_order_strategy_type OrderStrategyType.SINGLE
    |>.add_option_leg OptionInstruction.BUY_TO_OPEN long_call_symbol quantity
    |>.add_option_leg OptionInstruction.SELL_TO_OPEN short_call_symbol quantity)

/-- `bull_call_vertical_close`. -/
def bull_call_vertical_close (long_call_symbol short_call_symbol : List Char)
    (quantity : Nat) (net_credit : Int × Nat) : OrderBuilder :=
  (((((__base_builder.set_order_type
      OrderType.NET_CREDIT).set_complex_order_strategy_type
      ComplexOrderStrategyType.VERTICAL).set_price net_credit).set_quantity
      quantity).set_order_strategy_type OrderStrategyType.SINGLE
    |>.add_option_leg OptionInstruction.SELL_TO_CLOSE long_call_symbol quantity
    |>.add_option_leg OptionInstruction.BUY_TO_CLOSE short_call_symbol quantity)

/-- `bear_call_vertical_open`. -/
def bear_call_vertical_open (short_call_symbol long_call_symbol : List Char)
    (quantity : Nat) (net_credit : Int × Nat) : OrderBuilder :=
  (((((__base_builder.set_order_type
      OrderType.NET_CREDIT).set_complex_order_strategy_type
      ComplexOrderStrategyType.VERTICAL).set_price net_credit).set_quantity
      quantity).set_order_strategy_type OrderStrategyType.SINGLE
    |>.add_option_leg OptionInstruction.SELL_TO_OPEN short_call_symbol quantity
    |>.add_option_leg OptionInstruction.BUY_TO_OPEN long_call_symbol quantity)

/-- `bear_call_vertical_close`. -/
def bear_call_vertical_close (short_call_symbol long_call_symbol : List Char)
    (quantity : Nat) (net_debit : Int × Nat) : OrderBuilder :=
  (((((__base_builder.set_order_type
      OrderType.NET_DEBIT).set_complex_order_strategy_type
      ComplexOrderStrategyType.VERTICAL).set_price net_debit).set_quantity
      quantity).set_order_strategy_type OrderStrategyType.SINGLE
    |>.add_option_leg OptionInstruction.BUY_TO_CLOSE short_call_symbol quantity
    |>.add_option_leg OptionInstruction.SELL_TO_CLOSE long_call_symbol quantity)

/-- `bull_put_vertical_open`. -/
def bull_put_vertical_open (long_put_symbol short_put_symbol : List Char)
    (quantity : Nat) (net_credit : Int × Nat) : OrderBuilder :=
  (((((__base_builder.set_order_type
      OrderType.NET_CREDIT).set_complex_order_strategy_type
      ComplexOrderStrategyType.VERTICAL).set_price net_credit).set_quantity
      quantity).set_order_strategy_type OrderStrategyType.SINGLE
    |>.add_option_leg OptionInstruction.BUY_TO_OPEN long_put_symbol quantity
    |>.add_option_leg OptionInstruction.SELL_TO_OPEN short_put_symbol quantity)

/-- `bull_put_vertical_close`. -/
def bull_put_vertical_close (long_put_symbol short_put_symbol : List Char)
    (quantity : Nat) (net_debit : Int × Nat) : OrderBuilder :=
  (((((__base_builder.set_order_type
      OrderType.NET_DEBIT).set_complex_order_strategy_type
      ComplexOrderStrategyType.VERTICAL).set_price net_debit).set_quantity
      quantity).set_order_strategy_type OrderStrategyType.SINGLE
    |>.add_option_leg OptionInstruction.SELL_TO_CLOSE long_put_symbol quantity
    |>.add_option_leg OptionInstruction.BUY_TO_CLOSE short_put_symbol quantity)

/-- `bear_put_vertical_open`. -/
def bear_put_vertical_open (short_put_symbol long_put_symbol : List Char)
    (quantity : Nat) (net_debit : Int × Nat) : OrderBuilder :=
  (((((__base_builder.set_order_type
      OrderType.NET_DEBIT).set_complex_order_strategy_type
      ComplexOrderStrategyType.VERTICAL).set_price net_debit).set_quantity
      quantity).set_order_strategy_type OrderStrategyType.SINGLE
    |>.add_option_leg OptionInstruction.SELL_TO_OPEN short_put_symbol quantity
    |>.add_option_leg OptionInstruction.BUY_TO_OPEN long_put_symbol quantity)

/-- `bear_put_vertical_close`. -/
def bear_put_vertical_close (short_put_symbol long_put_symbol : List Char)
    (quantity : Nat) (net_credit : Int × Nat) : OrderBuilder :=
  (((((__base_builder.set_order_type
      OrderType.NET_CREDIT).set_complex_order_strategy_type
      ComplexOrderStrategyType.VERTICAL).set_price net_credit).set_quantity
      quantity).set_order_strategy_type OrderStrategyType.SINGLE
    |>.add_option_leg OptionInstruction.BUY_TO_CLOSE short_put_symbol quantity
    |>.add_option_leg OptionInstruction.SELL_TO_CLOSE long_put_symbol quantity)

/-- Spec-side strict date grammar (spec §4.1 and §8, the claim C4 reading):
exactly six digit characters `YYMMDD` with a 01-12 month and a
calendar-valid 01-31 day, mapped through the `%y` two-digit-year rule. -/
def specStrictDate (cs : List Char) : Option Date :=
  match cs with
  | [a, b, m1, m0, d1, d0] =>
    if isDigitC a && isDigitC b && isDigitC m1 && isDigitC m0 &&
        isDigitC d1 && isDigitC d0 then
      let y := mapYear (digitVal a * 10 + digitVal b)
      let mo := digitVal m1 * 10 + digitVal m0
      let dy := digitVal d1 * 10 + digitVal d0
      if dateValid y mo dy then some ⟨y, mo, dy⟩ else none
    else none
  | _ => none

theorem pySplit_of_not_mem {sep : Char} {cs : List Char} (h : sep ∉ cs) :
    pySplit sep cs = [cs] := by
  induction cs with
  | nil => rfl
  | cons c cs ih =>
    have hc : ¬ c = sep := fun hh => h (hh ▸ List.mem_cons_self c cs)
    have hcs : sep ∉ cs := fun hh => h (List.mem_cons_of_mem c hh)
    simp [pySplit, hc, ih hcs]

theorem pySplit_append_cons {sep : Char} {xs ys : List Char} (h : sep ∉ xs) :
    pySplit sep (xs ++ sep :: ys) = xs :: pySplit sep ys := by
  induction xs with
  | nil => simp [pySplit]
  | cons c xs ih =>
    have hc : ¬ c = sep := fun hh => h (hh ▸ List.mem_cons_self c xs)
    have hxs : sep ∉ xs := fun hh => h (List.mem_cons_of_mem c hh)
    simp [pySplit, hc, ih hxs]

theorem pySplit_length {sep : Char} (cs : List Char) :
    (pySplit sep cs).length = cs.count sep + 1 := by
  induction cs with
  | nil => rfl
  | cons c cs ih =>
    by_cases hc : c = sep
    · simp [pySplit, hc, List.count_cons, ih]
    · have h2 : (pySplit sep cs).length = cs.count sep + 1 := ih
      rcases hr : pySplit sep cs with _ | ⟨r, rs⟩
      · rw [hr] at h2; simp at h2
      · rw [hr] at h2
        simp [pySplit, hc, hr, List.count_cons]
        simp at h2
        omega

theorem charToNatInj {c d : Char} (h : c.toNat = d.toNat) : c = d :=
  Char.ext (UInt32.ext h)

theorem toNat_digitChar {k : Nat} (h : k < 10) : (digitChar k).toNat = 48 + k := by
  interval_cases k <;> rfl

theorem isDigitC_digitChar {k : Nat} (h : k < 10) : isDigitC (digitChar k) = true := by
  interval_cases k <;> rfl

theorem digitVal_digitChar {k : Nat} (h : k < 10) : digitVal (digitChar k) = k := by
  interval_cases k <;> rfl

theorem isDigitC_toNat {c : Char} (h : isDigitC c = true) :
    48 ≤ c.toNat ∧ c.toNat ≤ 57 := by
  simpa [isDigitC, Bool.and_eq_true, decide_eq_true_eq] using h

theorem digitChar_digitVal {c : Char} (h : isDigitC c = true) :
    digitChar (digitVal c) = c := by
  obtain ⟨h1, h2⟩ := isDigitC_toNat h
  have hv : digitVal c = c.toNat - 48 := rfl
  apply charToNatInj
  rw [toNat_digitChar (by omega : digitVal c < 10)]
  omega

theorem digitVal_lt_ten {c : Char} (h : isDigitC c = true) : digitVal c < 10 := by
  obtain ⟨h1, h2⟩ := isDigitC_toNat h
  have : digitVal c = c.toNat - 48 := rfl
  omega

theorem toDecimalAux_digits :
    ∀ (fuel n : Nat) (acc : List Char), (∀ c ∈ acc, isDigitC c = true) →
      ∀ c ∈ toDecimalAux fuel n acc, isDigitC c = true := by
  intro fuel
  induction fuel with
  | zero => intro n acc hacc c hc; exact hacc c hc
  | succ fuel ih =>
    intro n acc hacc c hc
    by_cases hn : n < 10
    · simp only [toDecimalAux, if_pos hn] at hc
      rcases List.mem_cons.mp hc with h | h
      · exact h ▸ isDigitC_digitChar hn
      · exact hacc c h
    · simp only [toDecimalAux, if_neg hn] at hc
      refine ih (n / 10) _ ?_ c hc
      intro d hd
      rcases List.mem_cons.mp hd with h | h
      · exact h ▸ isDigitC_digitChar (Nat.mod_lt n (by omega))
      · exact hacc d h

theorem toDecimal_digits (n : Nat) : ∀ c ∈ toDecimal n, isDigitC c = true :=
  toDecimalAux_digits (n + 1) n [] (by intro c hc; cases hc)

theorem toDecimalAux_length :
    ∀ (k fuel n : Nat) (acc : List Char), n ≤ fuel → 10 ^ k ≤ n → n < 10 ^ (k + 1) →
      (toDecimalAux fuel n acc).length = acc.length + k + 1 := by
  intro k
  induction k with
  | zero =>
    intro fuel n acc hfuel h1 h2
    simp only [pow_zero, pow_one] at h1 h2
    obtain ⟨f, rfl⟩ : ∃ f, fuel = f + 1 := ⟨fuel - 1, by omega⟩
    simp [toDecimalAux, show n < 10 by omega]
  | succ k ih =>
    intro fuel n acc hfuel h1 h2
    have hten : 10 ≤ n := le_trans (by
      calc 10 = 10 ^ 1 := (pow_one 10).symm
      _ ≤ 10 ^ (k + 1) := Nat.pow_le_pow_right (by omega) (by omega)) h1
    obtain ⟨f, rfl⟩ : ∃ f, fuel = f + 1 := ⟨fuel - 1, by omega⟩
    have hnn : ¬ n < 10 := by omega
    simp only [toDecimalAux, if_neg hnn]
    have hdiv1 : 10 ^ k ≤ n / 10 := by
      rw [Nat.le_div_iff_mul_le (by omega)]
      calc 10 ^ k * 10 = 10 ^ (k + 1) := by ring
      _ ≤ n := h1
    have hdiv2 : n / 10 < 10 ^ (k + 1) := by
      rw [Nat.div_lt_iff_lt_mul (by omega)]
      calc n < 10 ^ (k + 1 + 1) := h2
      _ = 10 ^ (k + 1) * 10 := by ring
    have hf : n / 10 ≤ f := by
      have : n / 10 < n := Nat.div_lt_self (by omega) (by omega)
      omega
    rw [ih f (n / 10) _ hf hdiv1 hdiv2]
    simp
    omega

theorem toDecimal_length {k n : Nat} (h1 : 10 ^ k ≤ n) (h2 : n < 10 ^ (k + 1)) :
    (toDecimal n).length = k + 1 := by
  have := toDecimalAux_length k (n + 1) n [] (by omega) h1 h2
  simpa [toDecimal] using this

theorem toDecimal_lt_ten {n : Nat} (h : n < 10) : toDecimal n = [digitChar n] := by
  simp [toDecimal, toDecimalAux, h]

theorem toDecimal_two_digit {n : Nat} (h1 : 10 ≤ n) (h2 : n < 100) :
    toDecimal n = [digitChar (n / 10), digitChar (n % 10)] := by
  obtain ⟨f, rfl⟩ : ∃ f, n = f + 1 := ⟨n - 1, by omega⟩
  show toDecimalAux (f + 1 + 1) (f + 1) [] = _
  rw [toDecimalAux, if_neg (by omega : ¬ f + 1 < 10), toDecimalAux,
    if_pos (by omega : (f + 1) / 10 < 10)]

theorem pad2_eq {n : Nat} (h : n < 100) :
    pad2 n = [digitChar (n / 10), digitChar (n % 10)] := by
  by_cases hn : n < 10
  · have : n / 10 = 0 := by omega
    have hm : n % 10 = n := by omega
    simp [pad2, hn, toDecimal_lt_ten hn, this, hm, digitChar]
  · simp [pad2, hn, toDecimal_two_digit (by omega) h]

theorem pad2_digits (n : Nat) : ∀ c ∈ pad2 n, isDigitC c = true := by
  intro c hc
  by_cases hn : n < 10
  · rw [pad2, if_pos hn] at hc
    rcases List.mem_cons.mp hc with h1 | h1
    · exact h1 ▸ rfl
    · exact toDecimal_digits n c h1
  · rw [pad2, if_neg hn] at hc
    exact toDecimal_digits n c hc

theorem daysInMonth_le_31 (y m : Nat) : daysInMonth y m ≤ 31 := by
  simp only [daysInMonth]
  split
  · split <;> omega
  · split <;> omega

theorem monthCandidates_head {m : Nat} (h1 : 1 ≤ m) (h2 : m ≤ 12) (r : List Char) :
    ∃ tl, monthCandidates (pad2 m ++ r) = (m, r) :: tl := by
  interval_cases m <;> exact ⟨_, rfl⟩

theorem dayMatch_pad2 {d : Nat} (h1 : 1 ≤ d) (h2 : d ≤ 31) :
    dayMatch (pad2 d) = some (d, []) := by
  interval_cases d <;> rfl

theorem strict_strptime {yy m d : Nat} (hyy : yy < 100)
    (hv : dateValid (mapYear yy) m d = true) :
    strptimeYMD (pad2 yy ++ (pad2 m ++ pad2 d)) = some ⟨mapYear yy, m, d⟩ := by
  have hv' := hv
  simp only [dateValid, Bool.and_eq_true, decide_eq_true_eq] at hv'
  obtain ⟨⟨⟨hm1, hm2⟩, hd1⟩, hd2⟩ := hv'
  have hd31 : d ≤ 31 := le_trans hd2 (daysInMonth_le_31 _ _)
  obtain ⟨tl, htl⟩ := monthCandidates_head hm1 hm2 (pad2 d)
  have hq : yy / 10 < 10 := by omega
  have hr : yy % 10 < 10 := by omega
  have hyv : yy / 10 * 10 + yy % 10 = yy := by omega
  rw [pad2_eq hyy]
  simp only [List.cons_append, List.nil_append, strptimeYMD]
  rw [if_pos (by simp [isDigitC_digitChar hq, isDigitC_digitChar hr])]
  rw [htl, List.findSome?_cons, dayMatch_pad2 hd1 hd31]
  simp only [Option.map_some', digitVal_digitChar hq, digitVal_digitChar hr, hyv,
    if_pos rfl, hv, if_true]

theorem mapYear_mod {y : Nat} (h1 : 1969 ≤ y) (h2 : y ≤ 2068) :
    mapYear (y % 100) = y := by
  rw [mapYear]
  split <;> omega

theorem strftime_strptime {y m d : Nat} (h1 : 1969 ≤ y) (h2 : y ≤ 2068)
    (hv : dateValid y m d = true) :
    strptimeYMD (strftimeYMD ⟨y, m, d⟩) = some ⟨y, m, d⟩ := by
  have hy : y % 100 < 100 := Nat.mod_lt y (by omega)
  have hmap : mapYear (y % 100) = y := mapYear_mod h1 h2
  have := strict_strptime hy (hmap ▸ hv)
  rw [hmap] at this
  simpa [strftimeYMD, List.append_assoc] using this

theorem strftime_digits (d : Date) : ∀ c ∈ strftimeYMD d, isDigitC c = true := by
  intro c hc
  simp only [strftimeYMD, List.mem_append] at hc
  rcases hc with (h | h) | h
  · exact pad2_digits _ c h
  · exact pad2_digits _ c h
  · exact pad2_digits _ c h

theorem make_ok {u : List Char} {e : ExpirationInput} {ct sp : List Char}
    {o : OptionSymbol} (h : OptionSymbol.make u e ct sp = Except.ok o) :
    o.underlying_symbol = u ∧
    (o.contract_type = ("C").data ∨ o.contract_type = ("P").data) ∧
    ∃ num exp, parseDecimal sp = some (num, exp) ∧ 0 < num ∧
      o.strike_price =
        (if num < 1000 * (10 : Int) ^ exp then ['0', '0'] else ['0']) ++
          toDecimal (num.toNat * 1000 / 10 ^ exp) := by
  rw [OptionSymbol.make.eq_def] at h
  split at h
  · exact absurd h (by simp)
  · rename_i ct' hct
    split at h
    · exact absurd h (by simp)
    · rename_i ed hed
      split at h
      · exact absurd h (by simp)
      · rename_i num exp hnum
        split at h
        · exact absurd h (by simp)
        · rename_i hpos
          have ho := (Except.ok.injEq _ _).mp h
          have hc : ct' = ("C").data ∨ ct' = ("P").data := by
            split at hct
            · exact Or.inl ((Except.ok.injEq _ _).mp hct).symm
            · split at hct
              · exact Or.inr ((Except.ok.injEq _ _).mp hct).symm
              · exact absurd hct (by simp)
          refine ⟨?_, ?_, num, exp, hnum, by omega, ?_⟩
          · rw [← ho]
          · rw [← ho]; exact hc
          · rw [← ho]

theorem strike_digits {num : Int} {exp : Nat} :
    ∀ c ∈ (if num < 1000 * (10 : Int) ^ exp then ['0', '0'] else ['0']) ++
        toDecimal (num.toNat * 1000 / 10 ^ exp), isDigitC c = true := by
  intro c hc
  rcases List.mem_append.mp hc with h | h
  · split at h
    · simp only [List.mem_cons, List.not_mem_nil, or_false] at h
      rcases h with h | h <;> (subst h; rfl)
    · simp only [List.mem_cons, List.not_mem_nil, or_false] at h
      subst h; rfl
  · exact toDecimal_digits _ c h

theorem parse_symbol_no_underscore {s : List Char} (h : '_' ∉ s) :
    OptionSymbol.parse_symbol s =
      Except.error (SchwabError.invalidSymbolFormat underscoreMsg) := by
  simp [OptionSymbol.parse_symbol, pySplit_of_not_mem h]

theorem make_contract_C {u : List Char} {e : ExpirationInput} {sp : List Char}
    {o : OptionSymbol} (h : OptionSymbol.make u e (("C").data) sp = Except.ok o) :
    o.contract_type = ("C").data := by
  rw [OptionSymbol.make.eq_def] at h
  rw [if_pos (Or.inl rfl)] at h
  repeat' split at h
  all_goals simp_all
  all_goals exact (congrArg OptionSymbol.contract_type h.symm).trans (by simp_all)

theorem make_contract_P {u : List Char} {e : ExpirationInput} {sp : List Char}
    {o : OptionSymbol} (h : OptionSymbol.make u e (("P").data) sp = Except.ok o) :
    o.contract_type = ("P").data := by
  rw [OptionSymbol.make.eq_def] at h
  rw [if_neg (by decide), if_pos (Or.inl rfl)] at h
  repeat' split at h
  all_goals simp_all
  all_goals exact (congrArg OptionSymbol.contract_type h.symm).trans (by simp_all)

theorem build_not_underscore {u : List Char} {e : ExpirationInput}
    {ct sp : List Char} {o : OptionSymbol} (hu : '_' ∉ u)
    (h : OptionSymbol.make u e ct sp = Except.ok o) :
    '_' ∉ OptionSymbol.build o := by
  obtain ⟨h1, h2, num, exp, h3, h4, h5⟩ := make_ok h
  have hstrf : '_' ∉ strftimeYMD o.expiration_date := fun hc =>
    absurd (strftime_digits _ _ hc) (by decide)
  have hct : '_' ∉ o.contract_type := by
    rcases h2 with h2 | h2 <;> rw [h2] <;> decide
  have hsk : '_' ∉ o.strike_price := fun hc =>
    absurd (strike_digits _ (h5 ▸ hc)) (by decide)
  intro hmem
  simp only [OptionSymbol.build, List.mem_append] at hmem
  rcases hmem with (((hA | hB) | hC) | hD) | hE
  · exact hu (h1 ▸ hA)
  · exact absurd hB (by decide)
  · exact hstrf hC
  · exact hct hD
  · exact hsk hE

/-- C5: the strike encoding multiplies the numeric strike by 1000 and
truncates before zero-prefixing: strike "500" encodes to "00500000",
"5040" to "05040000", "1000" to "01000000", "999.999" to "00999999"; and
the QQQ put builds to "QQQ  240420P00500000" with exactly two spaces
between underlying and date. -/
theorem C5_strike_encoding :
    (OptionSymbol.make (("QQQ").data) (ExpirationInput.str (("240420").data))
        (("P").data) (("500").data)).map OptionSymbol.strike_price =
      Except.ok (("00500000").data) ∧
    (OptionSymbol.make (("QQQ").data) (ExpirationInput.str (("240420").data))
        (("P").data) (("5040").data)).map OptionSymbol.strike_price =
      Except.ok (("05040000").data) ∧
    (OptionSymbol.make (("QQQ").data) (ExpirationInput.str (("240420").data))
        (("P").data) (("1000").data)).map OptionSymbol.strike_price =
      Except.ok (("01000000").data) ∧
    (OptionSymbol.make (("QQQ").data) (ExpirationInput.str (("240420").data))
        (("P").data) (("999.999").data)).map OptionSymbol.strike_price =
      Except.ok (("00999999").data) ∧
    (OptionSymbol.make (("QQQ").data) (ExpirationInput.str (("240420").data))
        (("P").data) (("500").data)).map OptionSymbol.build =
      Except.ok (("QQQ  240420P00500000").data) := by
  refine ⟨by decide, by decide, by decide, by decide, by decide⟩

/-- C7: contract-type normalization stores tag "C" for inputs "C"/"CALL"
and "P" for "P"/"PUT" with identical resulting state for long and short
forms, and any other token fails with the InvalidContractType error. -/
theorem C7_contract_type (u : List Char) (e : ExpirationInput) (sp : List Char) :
    OptionSymbol.make u e (("CALL").data) sp = OptionSymbol.make u e (("C").data) sp ∧
    OptionSymbol.make u e (("PUT").data) sp = OptionSymbol.make u e (("P").data) sp ∧
    (∀ o, OptionSymbol.make u e (("C").data) sp = Except.ok o →
      o.contract_type = ("C").data) ∧
    (∀ o, OptionSymbol.make u e (("P").data) sp = Except.ok o →
      o.contract_type = ("P").data) ∧
    (∀ ct, ct ≠ ("C").data → ct ≠ ("CALL").data → ct ≠ ("P").data →
      ct ≠ ("PUT").data →
      OptionSymbol.make u e ct sp =
        Except.error (SchwabError.invalidContractType contractTypeMsg)) := by
  refine ⟨rfl, rfl, fun o h => make_contract_C h, fun o h => make_contract_P h, ?_⟩
  intro ct h1 h2 h3 h4
  rw [OptionSymbol.make.eq_def]
  rw [if_neg (by simp [h1, h2]), if_neg (by simp [h3, h4])]

/-- Witness for C7 at concrete inputs: the long and short call forms agree,
and the token "X" is rejected with the InvalidContractType error. -/
theorem C7_witness :
    OptionSymbol.make (("QQQ").data) (ExpirationInput.str (("240420").data))
        (("CALL").data) (("500").data) =
      OptionSymbol.make (("QQQ").data) (ExpirationInput.str (("240420").data))
        (("C").data) (("500").data) ∧
    OptionSymbol.make (("QQQ").data) (ExpirationInput.str (("240420").data))
        (("X").data) (("500").data) =
      Except.error (SchwabError.invalidContractType contractTypeMsg) := by
  have h := C7_contract_type (("QQQ").data)
    (ExpirationInput.str (("240420").data)) (("500").data)
  exact ⟨h.1, h.2.2.2.2 (("X").data) (by decide) (by decide) (by decide) (by decide)⟩

/-- C6: each of the eight vertical-spread recipes sets exactly the net
order type of the spec table, complex order strategy VERTICAL, and exactly
the two legs of the table in order, both with the caller's quantity.  The
first two symbol arguments of each recipe appear here as s1 and s2 in the
source's parameter order. -/
theorem C6_vertical_table (s1 s2 : List Char) (q : Nat) (p : Int × Nat) :
    ((bull_call_vertical_open s1 s2 q p).orderType = some OrderType.NET_DEBIT ∧
      (bull_call_vertical_open s1 s2 q p).complexOrderStrategyType =
        some ComplexOrderStrategyType.VERTICAL ∧
      (bull_call_vertical_open s1 s2 q p).legs =
        [⟨OptionInstruction.BUY_TO_OPEN, s1, q⟩,
          ⟨OptionInstruction.SELL_TO_OPEN, s2, q⟩]) ∧
    ((bull_call_vertical_close s1 s2 q p).orderType = some OrderType.NET_CREDIT ∧
      (bull_call_vertical_close s1 s2 q p).complexOrderStrategyType =
        some ComplexOrderStrategyType.VERTICAL ∧
      (bull_call_vertical_close s1 s2 q p).legs =
        [⟨OptionInstruction.SELL_TO_CLOSE, s1, q⟩,
          ⟨OptionInstruction.BUY_TO_CLOSE, s2, q⟩]) ∧
    ((bear_call_vertical_open s1 s2 q p).orderType = some OrderType.NET_CREDIT ∧
      (bear_call_vertical_open s1 s2 q p).complexOrderStrategyType =
        some ComplexOrderStrategyType.VERTICAL ∧
      (bear_call_vertical_open s1 s2 q p).legs =
        [⟨OptionInstruction.SELL_TO_OPEN, s1, q⟩,
          ⟨OptionInstruction.BUY_TO_OPEN, s2, q⟩]) ∧
    ((bear_call_vertical_close s1 s2 q p).orderType = some OrderType.NET_DEBIT ∧
      (bear_call_vertical_close s1 s2 q p).complexOrderStrategyType =
        some ComplexOrderStrategyType.VERTICAL ∧
      (bear_call_vertical_close s1 s2 q p).legs =
        [⟨OptionInstruction.BUY_TO_CLOSE, s1, q⟩,
          ⟨OptionInstruction.SELL_TO_CLOSE, s2, q⟩]) ∧
    ((bull_put_vertical_open s1 s2 q p).orderType = some OrderType.NET_CREDIT ∧
      (bull_put_vertical_open s1 s2 q p).complexOrderStrategyType =
        some ComplexOrderStrategyType.VERTICAL ∧
      (bull_put_vertical_open s1 s2 q p).legs =
        [⟨OptionInstruction.BUY_TO_OPEN, s1, q⟩,
          ⟨OptionInstruction.SELL_TO_OPEN, s2, q⟩]) ∧
    ((bull_put_vertical_close s1 s2 q p).orderType = some OrderType.NET_DEBIT ∧
      (bull_put_vertical_close s1 s2 q p).complexOrderStrategyType =
        some ComplexOrderStrategyType.VERTICAL ∧
      (bull_put_vertical_close s1 s2 q p).legs =
        [⟨OptionInstruction.SELL_TO_CLOSE, s1, q⟩,
          ⟨OptionInstruction.BUY_TO_CLOSE, s2, q⟩]) ∧
    ((bear_put_vertical_open s1 s2 q p).orderType = some OrderType.NET_DEBIT ∧
      (bear_put_vertical_open s1 s2 q p).complexOrderStrategyType =
        some ComplexOrderStrategyType.VERTICAL ∧
      (bear_put_vertical_open s1 s2 q p).legs =
        [⟨OptionInstruction.SELL_TO_OPEN, s1, q⟩,
          ⟨OptionInstruction.BUY_TO_OPEN, s2, q⟩]) ∧
    ((bear_put_vertical_close s1 s2 q p).orderType = some OrderType.NET_CREDIT ∧
      (bear_put_vertical_close s1 s2 q p).complexOrderStrategyType =
        some ComplexOrderStrategyType.VERTICAL ∧
      (bear_put_vertical_close s1 s2 q p).legs =
        [⟨OptionInstruction.BUY_TO_CLOSE, s1, q⟩,
          ⟨OptionInstruction.SELL_TO_CLOSE, s2, q⟩]) :=
  ⟨⟨rfl, rfl, rfl⟩, ⟨rfl, rfl, rfl⟩, ⟨rfl, rfl, rfl⟩, ⟨rfl, rfl, rfl⟩,
    ⟨rfl, rfl, rfl⟩, ⟨rfl, rfl, rfl⟩, ⟨rfl, rfl, rfl⟩, ⟨rfl, rfl, rfl⟩⟩

/-- C9: each single-leg recipe yields order strategy type SINGLE with
exactly one leg carrying the recipe's instruction, the given symbol and
quantity; the market variants leave the price field unset and the limit
variants carry exactly the supplied price. -/
theorem C9_single_leg (sym : List Char) (q : Nat) (p : Int × Nat) :
    ((option_buy_to_open_market sym q).orderType = some OrderType.MARKET ∧
      (option_buy_to_open_market sym q).orderStrategyType =
        some OrderStrategyType.SINGLE ∧
      (option_buy_to_open_market sym q).legs =
        [⟨OptionInstruction.BUY_TO_OPEN, sym, q⟩] ∧
      (option_buy_to_open_market sym q).price = none) ∧
    ((option_sell_to_open_market sym q).orderType = some OrderType.MARKET ∧
      (option_sell_to_open_market sym q).orderStrategyType =
        some OrderStrategyType.SINGLE ∧
      (option_sell_to_open_market sym q).legs =
        [⟨OptionInstruction.SELL_TO_OPEN, sym, q⟩] ∧
      (option_sell_to_open_market sym q).price = none) ∧
    ((option_buy_to_close_market sym q).orderType = some OrderType.MARKET ∧
      (option_buy_to_close_market sym q).orderStrategyType =
        some OrderStrategyType.SINGLE ∧
      (option_buy_to_close_market sym q).legs =
        [⟨OptionInstruction.BUY_TO_CLOSE, sym, q⟩] ∧
      (option_buy_to_close_market sym q).price = none) ∧
    ((option_sell_to_close_market sym q).orderType = some OrderType.MARKET ∧
      (option_sell_to_close_market sym q).orderStrategyType =
        some OrderStrategyType.SINGLE ∧
      (option_sell_to_close_market sym q).legs =
        [⟨OptionInstruction.SELL_TO_CLOSE, sym, q⟩] ∧
      (option_sell_to_close_market sym q).price = none) ∧
    ((option_buy_to_open_limit sym q p).orderType = some OrderType.LIMIT ∧
      (option_buy_to_open_limit sym q p).orderStrategyType =
        some OrderStrategyType.SINGLE ∧
      (option_buy_to_open_limit sym q p).legs =
        [⟨OptionInstruction.BUY_TO_OPEN, sym, q⟩] ∧
      (option_buy_to_open_limit sym q p).price = some p) ∧
    ((option_sell_to_open_limit sym q p).orderType = some OrderType.LIMIT ∧
      (option_sell_to_open_limit sym q p).orderStrategyType =
        some OrderStrategyType.SINGLE ∧
      (option_sell_to_open_limit sym q p).legs =
        [⟨OptionInstruction.SELL_TO_OPEN, sym, q⟩] ∧
      (option_sell_to_open_limit sym q p).price = some p) ∧
    ((option_buy_to_close_limit sym q p).orderType = some OrderType.LIMIT ∧
      (option_buy_to_close_limit sym q p).orderStrategyType =
        some OrderStrategyType.SINGLE ∧
      (option_buy_to_close_limit sym q p).legs =
        [⟨OptionInstruction.BUY_TO_CLOSE, sym, q⟩] ∧
      (option_buy_to_close_limit sym q p).price = some p) ∧
    ((option_sell_to_close_limit sym q p).orderType = some OrderType.LIMIT ∧
      (option_sell_to_close_limit sym q p).orderStrategyType =
        some OrderStrategyType.SINGLE ∧
      (option_sell_to_close_limit sym q p).legs =
        [⟨OptionInstruction.SELL_TO_CLOSE, sym, q⟩] ∧
      (option_sell_to_close_limit sym q p).price = some p) :=
  ⟨⟨rfl, rfl, rfl, rfl⟩, ⟨rfl, rfl, rfl, rfl⟩, ⟨rfl, rfl, rfl, rfl⟩,
    ⟨rfl, rfl, rfl, rfl⟩, ⟨rfl, rfl, rfl, rfl⟩, ⟨rfl, rfl, rfl, rfl⟩,
    ⟨rfl, rfl, rfl, rfl⟩, ⟨rfl, rfl, rfl, rfl⟩⟩

/-- C10: every recipe in the module, the eight vertical spreads included,
sets order strategy type SINGLE; no recipe sets any other strategy type. -/
theorem C10_strategy_single (s1 s2 sym : List Char) (q : Nat) (p : Int × Nat) :
    (bull_call_vertical_open s1 s2 q p).orderStrategyType =
        some OrderStrategyType.SINGLE ∧
    (bull_call_vertical_close s1 s2 q p).orderStrategyType =
        some OrderStrategyType.SINGLE ∧
    (bear_call_vertical_open s1 s2 q p).orderStrategyType =
        some OrderStrategyType.SINGLE ∧
    (bear_call_vertical_close s1 s2 q p).orderStrategyType =
        some OrderStrategyType.SINGLE ∧
    (bull_put_vertical_open s1 s2 q p).orderStrategyType =
        some OrderStrategyType.SINGLE ∧
    (bull_put_vertical_close s1 s2 q p).orderStrategyType =
        some OrderStrategyType.SINGLE ∧
    (bear_put_vertical_open s1 s2 q p).orderStrategyType =
        some OrderStrategyType.SINGLE ∧
    (bear_put_vertical_close s1 s2 q p).orderStrategyType =
        some OrderStrategyType.SINGLE ∧
    (option_buy_to_open_market sym q).orderStrategyType =
        some OrderStrategyType.SINGLE ∧
    (option_buy_to_open_limit sym q p).orderStrategyType =
        some OrderStrategyType.SINGLE ∧
    (option_sell_to_open_market sym q).orderStrategyType =
        some OrderStrategyType.SINGLE ∧
    (option_sell_to_open_limit sym q p).orderStrategyType =
        some OrderStrategyType.SINGLE ∧
    (option_buy_to_close_market sym q).orderStrategyType =
        some OrderStrategyType.SINGLE ∧
    (option_buy_to_close_limit sym q p).orderStrategyType =
        some OrderStrategyType.SINGLE ∧
    (option_sell_to_close_market sym q).orderStrategyType =
        some OrderStrategyType.SINGLE ∧
    (option_sell_to_close_limit sym q p).orderStrategyType =
        some OrderStrategyType.SINGLE :=
  ⟨rfl, rfl, rfl, rfl, rfl, rfl, rfl, rfl, rfl, rfl, rfl, rfl, rfl, rfl, rfl, rfl⟩

/-- C1 counterexample: a validly constructed OptionSymbol builds to
"QQQ  240420P00500000", and parse_symbol applied to that built string does
not succeed: it fails with the missing-underscore InvalidSymbolFormat
error, because the encoder's output grammar contains no underscore while
the parser requires one. -/
theorem C1_counterexample :
    (OptionSymbol.make (("QQQ").data) (ExpirationInput.str (("240420").data))
        (("P").data) (("500").data)).map OptionSymbol.build =
      Except.ok (("QQQ  240420P00500000").data) ∧
    OptionSymbol.parse_symbol (("QQQ  240420P00500000").data) =
      Except.error (SchwabError.invalidSymbolFormat underscoreMsg) :=
  ⟨by decide, by decide⟩

/-- C1 amended: for every OptionSymbol that passes construction validation
and whose underlying contains no underscore, formatting (build) and then
parsing the formatted string (parse_symbol) always FAILS, with the
missing-underscore InvalidSymbolFormat error: the encoder's grammar and the
parser's grammar are intentionally different, so the round trip never
succeeds on the built string. -/
theorem C1_build_then_parse (u : List Char) (e : ExpirationInput)
    (ct sp : List Char) (o : OptionSymbol) (hu : '_' ∉ u)
    (h : OptionSymbol.make u e ct sp = Except.ok o) :
    OptionSymbol.parse_symbol (OptionSymbol.build o) =
      Except.error (SchwabError.invalidSymbolFormat underscoreMsg) :=
  parse_symbol_no_underscore (build_not_underscore hu h)

/-- Witness for C1 at the concrete QQQ put: construction succeeds and
parsing the built string yields the missing-underscore error. -/
theorem C1_build_then_parse_witness :
    OptionSymbol.parse_symbol (OptionSymbol.build
      ⟨("QQQ").data, ("P").data, ⟨2024, 4, 20⟩, ("00500000").data⟩) =
      Except.error (SchwabError.invalidSymbolFormat underscoreMsg) :=
  C1_build_then_parse (("QQQ").data) (ExpirationInput.str (("240420").data))
    (("P").data) (("500").data)
    ⟨("QQQ").data, ("P").data, ⟨2024, 4, 20⟩, ("00500000").data⟩
    (by decide) (by decide)

/-- C2 counterexample: the strike string "50" has numeric value 50 with
0 < 50 ≤ 9999.999, yet the stored encoded strike field is "0050000",
which has 7 characters, not 8. -/
theorem C2_counterexample :
    parseDecimal (("50").data) = some (50, 0) ∧
    (OptionSymbol.make (("QQQ").data) (ExpirationInput.str (("240420").data))
        (("P").data) (("50").data)).map OptionSymbol.strike_price =
      Except.ok (("0050000").data) ∧
    (("0050000").data).length = 7 :=
  ⟨by decide, by decide, by decide⟩

/-- C2 amended: the encoded strike field is exactly 8 digit characters for
strikes whose numeric value S = num / 10 ^ exp satisfies 100 ≤ S ≤ 9999.999
(stated in integer form: 100 * 10 ^ exp ≤ num and num * 1000 ≤
9999999 * 10 ^ exp).  Below 100 the 8-character width is not guaranteed:
the counterexample at strike "50" yields a 7-character field. -/
theorem C2_eight_digits (u : List Char) (e : ExpirationInput) (ct sp : List Char)
    (num : Int) (exp : Nat) (o : OptionSymbol)
    (hparse : parseDecimal sp = some (num, exp))
    (hlo : 100 * (10 : Int) ^ exp ≤ num)
    (hhi : num * 1000 ≤ 9999999 * (10 : Int) ^ exp)
    (h : OptionSymbol.make u e ct sp = Except.ok o) :
    o.strike_price.length = 8 ∧ o.strike_price.all isDigitC = true := by
  obtain ⟨h1, h2, num', exp', h3, h4, h5⟩ := make_ok h
  rw [hparse] at h3
  obtain ⟨rfl, rfl⟩ : num = num' ∧ exp = exp' := by
    have := Option.some.inj h3
    exact ⟨congrArg Prod.fst this, congrArg Prod.snd this⟩
  have hall : o.strike_price.all isDigitC = true := by
    rw [h5]
    exact List.all_eq_true.mpr (fun c hc => strike_digits c hc)
  refine ⟨?_, hall⟩
  have hP : (0 : Nat) < 10 ^ exp := pow_pos (by omega) exp
  have hnn : (0 : Int) ≤ num := le_trans (by positivity) hlo
  have hcast : ((10 ^ exp : Nat) : Int) = (10 : Int) ^ exp := by push_cast; ring
  have hloN : 100 * 10 ^ exp ≤ num.toNat := by
    have : ((100 * 10 ^ exp : Nat) : Int) ≤ ((num.toNat : Nat) : Int) := by
      rw [Int.toNat_of_nonneg hnn]; push_cast; linarith
    exact_mod_cast this
  have hhiN : num.toNat * 1000 ≤ 9999999 * 10 ^ exp := by
    have : ((num.toNat * 1000 : Nat) : Int) ≤ ((9999999 * 10 ^ exp : Nat) : Int) := by
      rw [Nat.cast_mul, Int.toNat_of_nonneg hnn]; push_cast; linarith
    exact_mod_cast this
  rw [h5, List.length_append]
  split
  · rename_i hlt
    have hltN : num.toNat < 1000 * 10 ^ exp := by
      have : ((num.toNat : Nat) : Int) < ((1000 * 10 ^ exp : Nat) : Int) := by
        rw [Int.toNat_of_nonneg hnn]; push_cast; linarith
      exact_mod_cast this
    have hk1 : 10 ^ 5 ≤ num.toNat * 1000 / 10 ^ exp := by
      rw [Nat.le_div_iff_mul_le hP]
      calc 10 ^ 5 * 10 ^ exp = (100 * 10 ^ exp) * 1000 := by ring
      _ ≤ num.toNat * 1000 := Nat.mul_le_mul_right 1000 hloN
    have hk2 : num.toNat * 1000 / 10 ^ exp < 10 ^ 6 := by
      rw [Nat.div_lt_iff_lt_mul hP]
      calc num.toNat * 1000 < (1000 * 10 ^ exp) * 1000 :=
        mul_lt_mul_of_pos_right hltN (by omega)
      _ = 10 ^ 6 * 10 ^ exp := by ring
    rw [toDecimal_length hk1 hk2]
    rfl
  · rename_i hge
    have hgeN : 1000 * 10 ^ exp ≤ num.toNat := by
      have hgeI : 1000 * (10 : Int) ^ exp ≤ num := le_of_not_lt hge
      have : ((1000 * 10 ^ exp : Nat) : Int) ≤ ((num.toNat : Nat) : Int) := by
        rw [Int.toNat_of_nonneg hnn]; push_cast; linarith
      exact_mod_cast this
    have hk1 : 10 ^ 6 ≤ num.toNat * 1000 / 10 ^ exp := by
      rw [Nat.le_div_iff_mul_le hP]
      calc 10 ^ 6 * 10 ^ exp = (1000 * 10 ^ exp) * 1000 := by ring
      _ ≤ num.toNat * 1000 := Nat.mul_le_mul_right 1000 hgeN
    have hk2 : num.toNat * 1000 / 10 ^ exp < 10 ^ 7 := by
      have hdd : num.toNat * 1000 / 10 ^ exp ≤ 9999999 * 10 ^ exp / 10 ^ exp :=
        Nat.div_le_div_right hhiN
      rw [Nat.mul_div_cancel 9999999 hP] at hdd
      omega
    rw [toDecimal_length hk1 hk2]
    rfl

/-- Witness for C2 at strike "500": the encoded field "00500000" has
exactly 8 digit characters. -/
theorem C2_eight_digits_witness :
    (("00500000").data).length = 8 ∧ (("00500000").data).all isDigitC = true :=
  C2_eight_digits (("QQQ").data) (ExpirationInput.str (("240420").data))
    (("P").data) (("500").data) 500 0
    ⟨("QQQ").data, ("P").data, ⟨2024, 4, 20⟩, ("00500000").data⟩
    (by decide) (by decide) (by decide) (by decide)

theorem parse_symbol_two {s u rest : List Char} (h : pySplit '_' s = [u, rest]) :
    OptionSymbol.parse_symbol s =
      match pySplit 'P' rest with
      | [expiration, strike] => parseTail u expiration (("P").data) strike
      | _ =>
        match pySplit 'C' rest with
        | [expiration, strike] => parseTail u expiration (("C").data) strike
        | _ => Except.error (SchwabError.invalidSymbolFormat contractSplitMsg) := by
  rw [OptionSymbol.parse_symbol.eq_def, h]

theorem make_str_date {u ct sp s : List Char} {D : Date}
    (h : _parse_expiration_date s = Except.ok D) :
    OptionSymbol.make u (ExpirationInput.str s) ct sp =
      OptionSymbol.make u (ExpirationInput.date D) ct sp := by
  rw [OptionSymbol.make.eq_def, OptionSymbol.make.eq_def]
  simp only [h]

theorem pexp_error {x : ExpirationInput} {err : SchwabError}
    (h : (match x with
          | ExpirationInput.str s => _parse_expiration_date s
          | ExpirationInput.datetime d _ _ _ => Except.ok d
          | ExpirationInput.date d => Except.ok d) = Except.error err) :
    err = SchwabError.invalidDateFormat dateFormatMsg := by
  rcases x with s | ⟨d, hh, mm, ss⟩ | d
  · rw [show (match ExpirationInput.str s with
        | ExpirationInput.str s => _parse_expiration_date s
        | ExpirationInput.datetime d _ _ _ => Except.ok d
        | ExpirationInput.date d => Except.ok d) = _parse_expiration_date s from rfl] at h
    rw [_parse_expiration_date] at h
    split at h
    · exact absurd h (by simp)
    · exact ((Except.error.injEq _ _).mp h).symm
  · exact absurd h (by simp)
  · exact absurd h (by simp)

theorem make_not_symbolformat (u : List Char) (e : ExpirationInput)
    (ct sp : List Char) :
    isInvalidSymbolFormat (OptionSymbol.make u e ct sp) = false := by
  rw [OptionSymbol.make.eq_def]
  split
  · rename_i err heq
    have : err = SchwabError.invalidContractType contractTypeMsg := by
      split at heq
      · exact absurd heq (by simp)
      · split at heq
        · exact absurd heq (by simp)
        · exact ((Except.error.injEq _ _).mp heq).symm
    rw [this]; rfl
  · split
    · rename_i err heq
      rw [pexp_error heq]; rfl
    · split
      · rfl
      · split <;> rfl

theorem parseTail_not_symbolformat (u e ct k : List Char) :
    isInvalidSymbolFormat (parseTail u e ct k) = false := by
  rw [parseTail.eq_def]
  split
  · rename_i err heq
    rw [_parse_expiration_date] at heq
    split at heq
    · exact absurd heq (by simp)
    · rw [← ((Except.error.injEq _ _).mp heq)]; rfl
  · exact make_not_symbolformat _ _ _ _

theorem parseTail_contract_P {u e k : List Char} {o : OptionSymbol}
    (h : parseTail u e (("P").data) k = Except.ok o) :
    o.contract_type = ("P").data := by
  rw [parseTail.eq_def] at h
  split at h
  · exact absurd h (by simp)
  · exact make_contract_P h

theorem parseTail_contract_C {u e k : List Char} {o : OptionSymbol}
    (h : parseTail u e (("C").data) k = Except.ok o) :
    o.contract_type = ("C").data := by
  rw [parseTail.eq_def] at h
  split at h
  · exact absurd h (by simp)
  · exact make_contract_C h

/-- C4 counterexample: "2441" does not match the strict six-character
YYMMDD pattern (it has four characters), yet the expiration-date parser
accepts it as April 1, 2024 instead of failing with InvalidDateFormat,
because strptime's month and day groups also match single digits. -/
theorem C4_counterexample :
    specStrictDate (("2441").data) = none ∧
    _parse_expiration_date (("2441").data) = Except.ok ⟨2024, 4, 1⟩ :=
  ⟨by decide, by decide⟩

/-- C4 amended: every string matching the strict six-character YYMMDD
pattern with a calendar-valid month and day parses to the corresponding
date ("240420" to April 20, 2024), and "991301" fails with the
InvalidDateFormat error carrying the expected-pattern message; however,
not every non-matching string fails: the underlying strptime accepts
lenient one-digit month/day forms too, e.g. "2441" parses to
April 1, 2024. -/
theorem C4_date_parsing :
    (∀ cs dt, specStrictDate cs = some dt →
      _parse_expiration_date cs = Except.ok dt) ∧
    _parse_expiration_date (("240420").data) = Except.ok ⟨2024, 4, 20⟩ ∧
    _parse_expiration_date (("991301").data) =
      Except.error (SchwabError.invalidDateFormat dateFormatMsg) ∧
    _parse_expiration_date (("2441").data) = Except.ok ⟨2024, 4, 1⟩ := by
  refine ⟨?_, by decide, by decide, by decide⟩
  intro cs dt h
  rw [specStrictDate.eq_def] at h
  split at h
  · rename_i a b m1 m0 d1 d0
    split at h
    · rename_i hdig
      dsimp only at h
      split at h
      · rename_i hval
        obtain rfl := Option.some.inj h
        simp only [Bool.and_eq_true] at hdig
        obtain ⟨⟨⟨⟨⟨ha, hb⟩, hm1⟩, hm0⟩, hd1⟩, hd0⟩ := hdig
        have hva := digitVal_lt_ten ha
        have hvb := digitVal_lt_ten hb
        have hvm1 := digitVal_lt_ten hm1
        have hvm0 := digitVal_lt_ten hm0
        have hvd1 := digitVal_lt_ten hd1
        have hvd0 := digitVal_lt_ten hd0
        have e1 : pad2 (digitVal a * 10 + digitVal b) = [a, b] := by
          rw [pad2_eq (by omega),
            show (digitVal a * 10 + digitVal b) / 10 = digitVal a by omega,
            show (digitVal a * 10 + digitVal b) % 10 = digitVal b by omega,
            digitChar_digitVal ha, digitChar_digitVal hb]
        have e2 : pad2 (digitVal m1 * 10 + digitVal m0) = [m1, m0] := by
          rw [pad2_eq (by omega),
            show (digitVal m1 * 10 + digitVal m0) / 10 = digitVal m1 by omega,
            show (digitVal m1 * 10 + digitVal m0) % 10 = digitVal m0 by omega,
            digitChar_digitVal hm1, digitChar_digitVal hm0]
        have e3 : pad2 (digitVal d1 * 10 + digitVal d0) = [d1, d0] := by
          rw [pad2_eq (by omega),
            show (digitVal d1 * 10 + digitVal d0) / 10 = digitVal d1 by omega,
            show (digitVal d1 * 10 + digitVal d0) % 10 = digitVal d0 by omega,
            digitChar_digitVal hd1, digitChar_digitVal hd0]
        have hlist : ([a, b, m1, m0, d1, d0] : List Char) =
            pad2 (digitVal a * 10 + digitVal b) ++
              (pad2 (digitVal m1 * 10 + digitVal m0) ++
                pad2 (digitVal d1 * 10 + digitVal d0)) := by
          rw [e1, e2, e3]; rfl
        have hs := strict_strptime (by omega : digitVal a * 10 + digitVal b < 100) hval
        rw [← hlist] at hs
        simp [_parse_expiration_date, hs]
      · exact absurd h (by simp)
    · exact absurd h (by simp)
  · exact absurd h (by simp)

/-- Witness for C4 at the strict string "240420": it parses to
April 20, 2024. -/
theorem C4_date_parsing_witness :
    _parse_expiration_date (("240420").data) = Except.ok ⟨2024, 4, 20⟩ :=
  C4_date_parsing.1 (("240420").data) ⟨2024, 4, 20⟩ (by decide)

/-- C3: for every underscore-free underlying, every calendar-valid date
with a year renderable and re-parseable as YYMMDD (1969..2068), contract
letter P or C, and strike string of digits and an optional point that
parses to a positive value, parse_symbol applied to the decode-grammar
string U ++ "_" ++ YYMMDD ++ T ++ S returns exactly the OptionSymbol that
direct construction OptionSymbol(U, YYMMDD, T, S) returns, and that
construction succeeds. -/
theorem C3_round_trip (u S T : List Char) (y m d : Nat) (num : Int) (exp : Nat)
    (hu : '_' ∉ u)
    (hy1 : 1969 ≤ y) (hy2 : y ≤ 2068) (hv : dateValid y m d = true)
    (hT : T = ("P").data ∨ T = ("C").data)
    (hS : ∀ c ∈ S, isDigitC c = true ∨ c = '.')
    (hnum : parseDecimal S = some (num, exp)) (hpos : 0 < num) :
    OptionSymbol.parse_symbol (u ++ '_' :: (strftimeYMD ⟨y, m, d⟩ ++ (T ++ S))) =
      OptionSymbol.make u (ExpirationInput.str (strftimeYMD ⟨y, m, d⟩)) T S ∧
    exceptOk (OptionSymbol.make u
      (ExpirationInput.str (strftimeYMD ⟨y, m, d⟩)) T S) = true := by
  have hpe : _parse_expiration_date (strftimeYMD ⟨y, m, d⟩) =
      Except.ok ⟨y, m, d⟩ := by
    rw [_parse_expiration_date, strftime_strptime hy1 hy2 hv]
  have hdig := strftime_digits (⟨y, m, d⟩ : Date)
  have hnu : '_' ∉ strftimeYMD ⟨y, m, d⟩ := fun hc =>
    absurd (hdig _ hc) (by decide)
  have hnP : 'P' ∉ strftimeYMD ⟨y, m, d⟩ := fun hc =>
    absurd (hdig _ hc) (by decide)
  have hnC : 'C' ∉ strftimeYMD ⟨y, m, d⟩ := fun hc =>
    absurd (hdig _ hc) (by decide)
  have hSmem : ∀ x : Char, isDigitC x = false → x ≠ '.' → x ∉ S := by
    intro x hx1 hx2 hc
    rcases hS x hc with hh | hh
    · rw [hx1] at hh; cases hh
    · exact hx2 hh
  have hSu : '_' ∉ S := hSmem '_' (by decide) (by decide)
  have hSP : 'P' ∉ S := hSmem 'P' (by decide) (by decide)
  have hSC : 'C' ∉ S := hSmem 'C' (by decide) (by decide)
  have hrest : '_' ∉ strftimeYMD ⟨y, m, d⟩ ++ (T ++ S) := by
    intro hc
    rcases List.mem_append.mp hc with hc | hc
    · exact hnu hc
    · rcases List.mem_append.mp hc with hc | hc
      · rcases hT with rfl | rfl <;> exact absurd hc (by decide)
      · exact hSu hc
  have hsplit1 : pySplit '_' (u ++ '_' :: (strftimeYMD ⟨y, m, d⟩ ++ (T ++ S))) =
      [u, strftimeYMD ⟨y, m, d⟩ ++ (T ++ S)] := by
    rw [pySplit_append_cons hu, pySplit_of_not_mem hrest]
  have hokDate : exceptOk (OptionSymbol.make u
      (ExpirationInput.date ⟨y, m, d⟩) T S) = true := by
    rw [OptionSymbol.make.eq_def]
    rcases hT with rfl | rfl
    · rw [if_neg (by decide), if_pos (Or.inl rfl)]
      simp only [hnum]
      rw [if_neg (by omega : ¬ num ≤ 0)]
      rfl
    · rw [if_pos (Or.inl rfl)]
      simp only [hnum]
      rw [if_neg (by omega : ¬ num ≤ 0)]
      rfl
  have hmk : OptionSymbol.make u
      (ExpirationInput.str (strftimeYMD ⟨y, m, d⟩)) T S =
      OptionSymbol.make u (ExpirationInput.date ⟨y, m, d⟩) T S :=
    make_str_date hpe
  have hparse : OptionSymbol.parse_symbol
      (u ++ '_' :: (strftimeYMD ⟨y, m, d⟩ ++ (T ++ S))) =
      parseTail u (strftimeYMD ⟨y, m, d⟩) T S := by
    rw [parse_symbol_two hsplit1]
    rcases hT with rfl | rfl
    · have hsplitP : pySplit 'P' (strftimeYMD ⟨y, m, d⟩ ++ ((("P").data) ++ S)) =
          [strftimeYMD ⟨y, m, d⟩, S] := by
        rw [show (("P").data) ++ S = 'P' :: S from rfl,
          pySplit_append_cons hnP, pySplit_of_not_mem hSP]
      rw [hsplitP]
    · have hsplitP : pySplit 'P' (strftimeYMD ⟨y, m, d⟩ ++ ((("C").data) ++ S)) =
          [strftimeYMD ⟨y, m, d⟩ ++ ((("C").data) ++ S)] := by
        refine pySplit_of_not_mem ?_
        intro hc
        rcases List.mem_append.mp hc with hc | hc
        · exact hnP hc
        · rcases List.mem_append.mp hc with hc | hc
          · exact absurd hc (by decide)
          · exact hSP hc
      have hsplitC : pySplit 'C' (strftimeYMD ⟨y, m, d⟩ ++ ((("C").data) ++ S)) =
          [strftimeYMD ⟨y, m, d⟩, S] := by
        rw [show (("C").data) ++ S = 'C' :: S from rfl,
          pySplit_append_cons hnC, pySplit_of_not_mem hSC]
      rw [hsplitP, hsplitC]
  have htail : parseTail u (strftimeYMD ⟨y, m, d⟩) T S =
      OptionSymbol.make u (ExpirationInput.date ⟨y, m, d⟩) T S := by
    rw [parseTail.eq_def, hpe]
  exact ⟨by rw [hparse, htail, hmk], by rw [hmk]; exact hokDate⟩

/-- Witness for C3 at U = "XYZ", date 2024-04-20, contract P, strike
"500": direct construction succeeds and parsing the underscore-form string
returns the same OptionSymbol. -/
theorem C3_round_trip_witness :
    OptionSymbol.parse_symbol
        ((("XYZ").data) ++ '_' :: (strftimeYMD ⟨2024, 4, 20⟩ ++
          ((("P").data) ++ (("500").data)))) =
      OptionSymbol.make (("XYZ").data)
        (ExpirationInput.str (strftimeYMD ⟨2024, 4, 20⟩)) (("P").data)
        (("500").data) ∧
    exceptOk (OptionSymbol.make (("XYZ").data)
      (ExpirationInput.str (strftimeYMD ⟨2024, 4, 20⟩)) (("P").data)
      (("500").data)) = true :=
  C3_round_trip (("XYZ").data) (("500").data) (("P").data) 2024 4 20 500 0
    (by decide) (by decide) (by decide) (by decide) (Or.inl rfl)
    (by decide) (by decide) (by decide)

/-- C8: parse_symbol fails with the InvalidSymbolFormat error exactly when
the input does not contain exactly one underscore, or the post-underscore
remainder neither splits on P into exactly two pieces nor splits on C into
exactly two pieces; the P split is attempted first and a successful P split
drives the PUT path (stored tag "P"), and otherwise a successful C split
drives the CALL path (stored tag "C"). -/
theorem C8_parse_symbol_errors (s : List Char) :
    (isInvalidSymbolFormat (OptionSymbol.parse_symbol s) = true ↔
      (s.count '_' ≠ 1 ∨
        ∃ u rest, pySplit '_' s = [u, rest] ∧
          (pySplit 'P' rest).length ≠ 2 ∧ (pySplit 'C' rest).length ≠ 2)) ∧
    (∀ u rest e k, pySplit '_' s = [u, rest] → pySplit 'P' rest = [e, k] →
      OptionSymbol.parse_symbol s = parseTail u e (("P").data) k ∧
      ∀ o, OptionSymbol.parse_symbol s = Except.ok o →
        o.contract_type = ("P").data) ∧
    (∀ u rest e k, pySplit '_' s = [u, rest] →
      (pySplit 'P' rest).length ≠ 2 → pySplit 'C' rest = [e, k] →
      OptionSymbol.parse_symbol s = parseTail u e (("C").data) k ∧
      ∀ o, OptionSymbol.parse_symbol s = Except.ok o →
        o.contract_type = ("C").data) := by
  have hlen := @pySplit_length '_' s
  have hshape : ∀ (l : List (List Char)), l.length = 2 → ∃ a b, l = [a, b] := by
    intro l hl
    rcases l with _ | ⟨a, _ | ⟨b, _ | ⟨c, cs⟩⟩⟩
    · simp at hl
    · simp at hl
    · exact ⟨a, b, rfl⟩
    · simp at hl
  have hPpath : ∀ u rest e k, pySplit '_' s = [u, rest] →
      pySplit 'P' rest = [e, k] →
      OptionSymbol.parse_symbol s = parseTail u e (("P").data) k := by
    intro u rest e k h1 h2
    rw [parse_symbol_two h1, h2]
  have hCpath : ∀ u rest e k, pySplit '_' s = [u, rest] →
      (pySplit 'P' rest).length ≠ 2 → pySplit 'C' rest = [e, k] →
      OptionSymbol.parse_symbol s = parseTail u e (("C").data) k := by
    intro u rest e k h1 hne h2
    rw [parse_symbol_two h1]
    rcases hp : pySplit 'P' rest with _ | ⟨a, _ | ⟨b, _ | ⟨z, zs⟩⟩⟩
    · rw [h2]
    · rw [h2]
    · rw [hp] at hne; simp at hne
    · rw [h2]
  have hNeither : ∀ u rest, pySplit '_' s = [u, rest] →
      (pySplit 'P' rest).length ≠ 2 → (pySplit 'C' rest).length ≠ 2 →
      OptionSymbol.parse_symbol s =
        Except.error (SchwabError.invalidSymbolFormat contractSplitMsg) := by
    intro u rest h1 hP hC
    rw [parse_symbol_two h1]
    rcases hp : pySplit 'P' rest with _ | ⟨a, _ | ⟨b, _ | ⟨z, zs⟩⟩⟩
    · rcases hc : pySplit 'C' rest with _ | ⟨a2, _ | ⟨b2, _ | ⟨z2, zs2⟩⟩⟩
      · rfl
      · rfl
      · rw [hc] at hC; simp at hC
      · rfl
    · rcases hc : pySplit 'C' rest with _ | ⟨a2, _ | ⟨b2, _ | ⟨z2, zs2⟩⟩⟩
      · rfl
      · rfl
      · rw [hc] at hC; simp at hC
      · rfl
    · rw [hp] at hP; simp at hP
    · rcases hc : pySplit 'C' rest with _ | ⟨a2, _ | ⟨b2, _ | ⟨z2, zs2⟩⟩⟩
      · rfl
      · rfl
      · rw [hc] at hC; simp at hC
      · rfl
  refine ⟨?_, fun u rest e k h1 h2 =>
      ⟨hPpath u rest e k h1 h2,
        fun o ho => parseTail_contract_P ((hPpath u rest e k h1 h2) ▸ ho)⟩,
    fun u rest e k h1 hne h2 =>
      ⟨hCpath u rest e k h1 hne h2,
        fun o ho => parseTail_contract_C ((hCpath u rest e k h1 hne h2) ▸ ho)⟩⟩
  rcases hu : pySplit '_' s with _ | ⟨u, _ | ⟨rest, _ | ⟨x, xs⟩⟩⟩
  · rw [hu] at hlen; simp at hlen
  · have hperr : OptionSymbol.parse_symbol s =
        Except.error (SchwabError.invalidSymbolFormat underscoreMsg) := by
      rw [OptionSymbol.parse_symbol.eq_def, hu]
    have hcnt : s.count '_' ≠ 1 := by rw [hu] at hlen; simp at hlen; omega
    rw [hperr]
    exact ⟨fun _ => Or.inl hcnt, fun _ => rfl⟩
  · -- exactly one underscore: s splits into [u, rest]
    have hcnt : s.count '_' = 1 := by rw [hu] at hlen; simp at hlen; omega
    by_cases hP2 : (pySplit 'P' rest).length = 2
    · obtain ⟨e, k, hek⟩ := hshape _ hP2
      have hpeq := hPpath u rest e k hu hek
      rw [hpeq]
      constructor
      · intro hx
        rw [parseTail_not_symbolformat] at hx
        cases hx
      · intro hx
        rcases hx with hx | ⟨u', rest', h1', h2', h3'⟩
        · exact absurd hcnt hx
        · obtain ⟨rfl, rfl⟩ : u = u' ∧ rest = rest' := by simpa using h1'
          exact absurd hP2 h2'
    · by_cases hC2 : (pySplit 'C' rest).length = 2
      · obtain ⟨e, k, hek⟩ := hshape _ hC2
        have hpeq := hCpath u rest e k hu hP2 hek
        rw [hpeq]
        constructor
        · intro hx
          rw [parseTail_not_symbolformat] at hx
          cases hx
        · intro hx
          rcases hx with hx | ⟨u', rest', h1', h2', h3'⟩
          · exact absurd hcnt hx
          · obtain ⟨rfl, rfl⟩ : u = u' ∧ rest = rest' := by simpa using h1'
            exact absurd hC2 h3'
      · have hperr := hNeither u rest hu hP2 hC2
        rw [hperr]
        exact ⟨fun _ => Or.inr ⟨u, rest, rfl, hP2, hC2⟩, fun _ => rfl⟩
  · have hperr : OptionSymbol.parse_symbol s =
        Except.error (SchwabError.invalidSymbolFormat underscoreMsg) := by
      rw [OptionSymbol.parse_symbol.eq_def, hu]
    have hcnt : s.count '_' ≠ 1 := by rw [hu] at hlen; simp at hlen; omega
    rw [hperr]
    exact ⟨fun _ => Or.inl hcnt, fun _ => rfl⟩

/-- Witness for C8 at "AAPL_240420C00150000": the underscore and C splits
succeed, the P split does not, and parsing takes the CALL path; and
"QQQ240420P00500000" (no underscore) is recognized as an
InvalidSymbolFormat failure. -/
theorem C8_parse_symbol_errors_witness :
    OptionSymbol.parse_symbol (("AAPL_240420C00150000").data) =
      parseTail (("AAPL").data) (("240420").data) (("C").data)
        (("00150000").data) ∧
    isInvalidSymbolFormat
      (OptionSymbol.parse_symbol (("QQQ240420P00500000").data)) = true :=
  ⟨((C8_parse_symbol_errors (("AAPL_240420C00150000").data)).2.2
      (("AAPL").data) (("240420C00150000").data) (("240420").data)
      (("00150000").data) (by decide) (by decide) (by decide)).1,
    (C8_parse_symbol_errors (("QQQ240420P00500000").data)).1.mpr
      (Or.inl (by decide))⟩

end PySchwab
